import Mathlib

/-!
Verification of `scripts/check_cla.py` from the get-convex/convex-helpers
repository.

The script is a linear CI gate: it reads environment variables
`PR_DESCRIPTION`, `PR_AUTHOR` and `GITHUB_TOKEN`, optionally performs one
HTTP GET to the GitHub organization-membership endpoint, searches the
description for a fixed CLA sentence, and exits with 0 or 1.

Embedding choices:
* The environment is a record of `Option String` fields (a variable is
  either absent or set to a string).
* Python truthiness of an optional string (`if PR_AUTHOR:`,
  `if github_token:`) is `pyTruthy`: absent or empty is falsy.
* The network is modelled as a function `net : Request → HttpOutcome`
  supplied to `main`; `HttpOutcome` covers a successful response with a
  status code (`urlopen` returning normally), an `HTTPError` with a code,
  and any other exception (transport errors etc.).
* `re.search(re.escape(CLA_TEXT), PR_DESCRIPTION, re.MULTILINE)` is a
  literal substring search: `re.escape` escapes every regex metacharacter
  and `re.MULTILINE` only changes the meaning of `^`/`$`, which do not
  occur as metacharacters in the escaped pattern.  It is embedded as the
  executable substring test `containsSubstr`.
* A run's observable behaviour is its exit code, the list of printed
  lines, and the list of outbound requests (in order).
-/

namespace CheckCla

/-- The fixed CLA acknowledgement sentence (`CLA_TEXT` in the script). -/
def CLA_TEXT : String :=
  "By submitting this pull request, I confirm that you can use, modify, copy, and redistribute this contribution, under the terms of your choice."

/-- The fixed organization name (`ORGANIZATION` in the script). -/
def ORGANIZATION : String := "get-convex"

/-- Python truthiness of an optional string: `None` and `""` are falsy. -/
def pyTruthy : Option String → Bool
  | none => false
  | some s => s != ""

/-- Does `pat` occur at the start of `hay`?  (Character-list version.) -/
def headMatch : List Char → List Char → Bool
  | [], _ => true
  | _ :: _, [] => false
  | p :: ps, h :: hs => p == h && headMatch ps hs

/-- Does `pat` occur anywhere in `hay`?  (Character-list version.) -/
def occursIn (pat : List Char) : List Char → Bool
  | [] => headMatch pat []
  | h :: hs => headMatch pat (h :: hs) || occursIn pat hs

/-- Literal substring test on strings: the meaning of
`re.search(re.escape(pat), hay, re.MULTILINE)` being non-`None`. -/
def containsSubstr (hay pat : String) : Bool :=
  occursIn pat.data hay.data

/-- An outbound HTTP request: URL plus header list, as built by
`urllib.request.Request(url, headers=headers)`. -/
structure Request where
  url : String
  headers : List (String × String)
  deriving Repr, DecidableEq

/-- The possible outcomes of the single `urlopen` call:
a response (with its status code), an `urllib.error.HTTPError`
(with its code), or any other exception (with its message). -/
inductive HttpOutcome where
  | response (status : Nat)
  | httpError (code : Nat)
  | exception (msg : String)
  deriving Repr, DecidableEq

/-- The request built inside `is_org_member`: the membership endpoint for
`username`, the two fixed headers, and a bearer `Authorization` header
exactly when the token is truthy (`if github_token:`). -/
def mkRequest (username : String) (github_token : Option String) : Request :=
  { url := "https://api.github.com/orgs/" ++ ORGANIZATION ++ "/members/" ++ username
  , headers :=
      [("Accept", "application/vnd.github+json"),
       ("X-GitHub-Api-Version", "2022-11-28")] ++
      (if pyTruthy github_token then
        [("Authorization", "Bearer " ++ github_token.getD "")]
      else []) }

/-- Result of the membership lookup: the returned value (`True` or `None`
in Python, so `Option Bool` with `some false` never produced), the lines
it printed, and the requests it issued. -/
structure LookupResult where
  status : Option Bool
  output : List String
  requests : List Request
  deriving Repr, DecidableEq

/-- `is_org_member(username, github_token)`.  One request is always
attempted.  A 204 response returns `True`; any other response status
returns `None`; an `HTTPError` returns `None` whether its code is 404 or
not (the script has separate branches for 404 and for other codes, both
returning `None`); any other exception is caught by the outer handler,
which prints a warning and returns `None`. -/
def is_org_member (username : String) (github_token : Option String)
    (net : Request → HttpOutcome) : LookupResult :=
  match net (mkRequest username github_token) with
  | .response s =>
      { status := if s = 204 then some true else none
      , output := [], requests := [mkRequest username github_token] }
  | .httpError _ =>
      { status := none
      , output := [], requests := [mkRequest username github_token] }
  | .exception msg =>
      { status := none
      , output := ["Warning: Failed to check organization membership: " ++ msg]
      , requests := [mkRequest username github_token] }

/-- The process environment: the three variables the script reads. -/
structure Env where
  PR_DESCRIPTION : Option String
  PR_AUTHOR : Option String
  GITHUB_TOKEN : Option String
  deriving Repr, DecidableEq

/-- Observable behaviour of a run: exit code, printed lines in order,
outbound requests in order. -/
structure RunResult where
  exitCode : Nat
  output : List String
  requests : List Request
  deriving Repr, DecidableEq

/-- Printed when `PR_DESCRIPTION` is absent. -/
def noDescriptionMessage : String := "There was no pull request description given"

/-- Printed before exiting 0 when the author is a confirmed member. -/
def skipMessage (author : String) : String :=
  "Skipping CLA check: " ++ author ++ " is a member of the " ++ ORGANIZATION ++
    " organization (Convex employee)"

/-- Printed when the membership lookup returns `None`. -/
def couldNotVerifyMessage (author : String) : String :=
  "Warning: Could not verify organization membership for " ++ author ++
    ". Proceeding with CLA check."

/-- Printed when `PR_AUTHOR` is falsy. -/
def authorNotSetMessage : String :=
  "Warning: PR_AUTHOR environment variable not set. Proceeding with CLA check."

/-- Printed on a successful CLA text match. -/
def foundMessage : String := "CLA text found in PR description"

/-- Printed on a failed CLA text match (one `print` call, so one line of
output containing an embedded blank line and the required sentence). -/
def failMessage : String :=
  "Pull request description does not include the required CLA text. Please add the following text to your PR description:\n\n" ++ CLA_TEXT

/-- The final CLA text check of `main`: search the description for
`CLA_TEXT`; on success print the notice and fall off `main` (exit 0), on
failure print the guidance and `sys.exit(1)`. -/
def claCheck (desc : String) (prior : List String) (reqs : List Request) : RunResult :=
  if containsSubstr desc CLA_TEXT then
    { exitCode := 0, output := prior ++ [foundMessage], requests := reqs }
  else
    { exitCode := 1, output := prior ++ [failMessage], requests := reqs }

/-- The `if member_status is True / elif member_status is None / else`
cascade of `main` after the lookup: `True` exits 0 with the skip notice;
`None` warns and falls through to the CLA check; `False` (never actually
produced) would fall through silently. -/
def afterLookup (desc author : String) (r : LookupResult) : RunResult :=
  match r.status with
  | some true =>
      { exitCode := 0, output := r.output ++ [skipMessage author]
      , requests := r.requests }
  | none => claCheck desc (r.output ++ [couldNotVerifyMessage author]) r.requests
  | some false => claCheck desc r.output r.requests

/-- `main()` of `scripts/check_cla.py`.  Missing `PR_DESCRIPTION` is
fatal (exit 1, no request).  A truthy `PR_AUTHOR` triggers the membership
lookup; otherwise a warning is printed and the CLA check runs directly. -/
def main (env : Env) (net : Request → HttpOutcome) : RunResult :=
  match env.PR_DESCRIPTION with
  | none => { exitCode := 1, output := [noDescriptionMessage], requests := [] }
  | some desc =>
    if pyTruthy env.PR_AUTHOR then
      afterLookup desc (env.PR_AUTHOR.getD "")
        (is_org_member (env.PR_AUTHOR.getD "") env.GITHUB_TOKEN net)
    else
      claCheck desc [authorNotSetMessage] []

/-! ### Helper lemmas -/

/-- A list matches at its own head, with anything appended. -/
theorem headMatch_append (pat rest : List Char) : headMatch pat (pat ++ rest) = true := by
  induction pat with
  | nil => rfl
  | cons p ps ih => simp [headMatch, ih]

/-- A head match is an occurrence. -/
theorem occursIn_of_headMatch {pat hay : List Char} (h : headMatch pat hay = true) :
    occursIn pat hay = true := by
  cases hay with
  | nil => exact h
  | cons x xs => simp [occursIn, h]

/-- Occurrence is preserved by extending the haystack on the left. -/
theorem occursIn_cons {pat hay : List Char} (x : Char) (h : occursIn pat hay = true) :
    occursIn pat (x :: hay) = true := by
  simp [occursIn, h]

/-- A suffix occurs in the whole list. -/
theorem occursIn_append_self (a b : List Char) : occursIn b (a ++ b) = true := by
  induction a with
  | nil =>
      have hb : headMatch b b = true := by
        have := headMatch_append b []
        simpa using this
      simpa using occursIn_of_headMatch hb
  | cons x xs ih => simpa using occursIn_cons x ih

/-- The failure guidance line contains the exact required CLA sentence. -/
theorem failMessage_contains_cla : containsSubstr failMessage CLA_TEXT = true := by
  have h : failMessage.data =
      ("Pull request description does not include the required CLA text. Please add the following text to your PR description:\n\n").data ++ CLA_TEXT.data := by
    simp [failMessage]
  show occursIn CLA_TEXT.data failMessage.data = true
  rw [h]
  exact occursIn_append_self _ _

/-- The exit code of the final CLA check is decided by the substring test. -/
theorem claCheck_exitCode (desc : String) (prior : List String) (reqs : List Request) :
    (claCheck desc prior reqs).exitCode =
      if containsSubstr desc CLA_TEXT then 0 else 1 := by
  unfold claCheck
  split <;> rfl

/-- The lookup always issues exactly the one request it builds. -/
theorem is_org_member_requests (username : String) (github_token : Option String)
    (net : Request → HttpOutcome) :
    (is_org_member username github_token net).requests =
      [mkRequest username github_token] := by
  unfold is_org_member
  cases net (mkRequest username github_token) <;> rfl

/-- The lookup result is determined by the outcome of the one request. -/
theorem is_org_member_status (username : String) (github_token : Option String)
    (net : Request → HttpOutcome) :
    (is_org_member username github_token net).status =
      if net (mkRequest username github_token) = .response 204 then some true
      else none := by
  unfold is_org_member
  cases h : net (mkRequest username github_token) with
  | response s =>
      by_cases hs : s = 204 <;> simp [hs]
  | httpError c => simp
  | exception msg => simp

/-! ### Claims -/

/-- Claim C1: for every value of PR_DESCRIPTION that contains the exact
CLA sentence as a substring, if no membership exemption is triggered
(PR_AUTHOR absent/falsy, or the lookup does not return confirmed
membership), the program prints the success notice and exits with 0. -/
theorem claim_C1 (env : Env) (net : Request → HttpOutcome) (desc : String)
    (hdesc : env.PR_DESCRIPTION = some desc)
    (hcla : containsSubstr desc CLA_TEXT = true)
    (hexempt : pyTruthy env.PR_AUTHOR = false ∨
      (is_org_member (env.PR_AUTHOR.getD "") env.GITHUB_TOKEN net).status ≠ some true) :
    (main env net).exitCode = 0 ∧ foundMessage ∈ (main env net).output := by
  obtain ⟨d, a, t⟩ := env
  simp only at hdesc hexempt
  subst hdesc
  simp only [main]
  cases hpa : pyTruthy a with
  | false => simp [claCheck, hcla]
  | true =>
      rcases hexempt with h | h
      · rw [hpa] at h; exact absurd h (by simp)
      · simp only [if_pos rfl]
        cases hst : (is_org_member (a.getD "") t net).status with
        | none => simp [afterLookup, hst, claCheck, hcla]
        | some b =>
            cases b with
            | false => simp [afterLookup, hst, claCheck, hcla]
            | true => exact absurd hst h

/-- Witness for C1: description equal to the CLA sentence, author absent. -/
theorem claim_C1_witness :
    (main ⟨some CLA_TEXT, none, none⟩ (fun _ => HttpOutcome.exception "e")).exitCode = 0 ∧
    foundMessage ∈ (main ⟨some CLA_TEXT, none, none⟩ (fun _ => HttpOutcome.exception "e")).output :=
  claim_C1 ⟨some CLA_TEXT, none, none⟩ (fun _ => HttpOutcome.exception "e") CLA_TEXT rfl
    (by decide) (Or.inl rfl)

/-- Claim C2: for every value of PR_DESCRIPTION not containing the CLA
sentence, with no exempt author, the program exits with 1 and one of its
printed lines contains the exact required CLA sentence. -/
theorem claim_C2 (env : Env) (net : Request → HttpOutcome) (desc : String)
    (hdesc : env.PR_DESCRIPTION = some desc)
    (hcla : containsSubstr desc CLA_TEXT = false)
    (hexempt : pyTruthy env.PR_AUTHOR = false ∨
      (is_org_member (env.PR_AUTHOR.getD "") env.GITHUB_TOKEN net).status ≠ some true) :
    (main env net).exitCode = 1 ∧
      ∃ m ∈ (main env net).output, containsSubstr m CLA_TEXT = true := by
  obtain ⟨d, a, t⟩ := env
  simp only at hdesc hexempt
  subst hdesc
  simp only [main]
  cases hpa : pyTruthy a with
  | false =>
      refine ⟨by simp [claCheck, hcla], failMessage, ?_, failMessage_contains_cla⟩
      simp [claCheck, hcla]
  | true =>
      rcases hexempt with h | h
      · rw [hpa] at h; exact absurd h (by simp)
      · simp only [if_pos rfl]
        cases hst : (is_org_member (a.getD "") t net).status with
        | none =>
            refine ⟨by simp [afterLookup, hst, claCheck, hcla], failMessage, ?_,
              failMessage_contains_cla⟩
            simp [afterLookup, hst, claCheck, hcla]
        | some b =>
            cases b with
            | false =>
                refine ⟨by simp [afterLookup, hst, claCheck, hcla], failMessage, ?_,
                  failMessage_contains_cla⟩
                simp [afterLookup, hst, claCheck, hcla]
            | true => exact absurd hst h

/-- Witness for C2: description "fixes bug", author absent. -/
theorem claim_C2_witness :
    (main ⟨some "fixes bug", none, none⟩ (fun _ => HttpOutcome.exception "e")).exitCode = 1 ∧
    ∃ m ∈ (main ⟨some "fixes bug", none, none⟩ (fun _ => HttpOutcome.exception "e")).output,
      containsSubstr m CLA_TEXT = true :=
  claim_C2 ⟨some "fixes bug", none, none⟩ (fun _ => HttpOutcome.exception "e") "fixes bug" rfl
    (by decide) (Or.inl rfl)

/-- Claim C3: when PR_AUTHOR is present (and truthy) and the membership
request gets an HTTP 204 response, the whole run consists of the skip
notice and exit 0; the output and exit code are independent of the
description, so the CLA text search is never performed. -/
theorem claim_C3 (desc author : String) (tok : Option String)
    (net : Request → HttpOutcome)
    (hauthor : author ≠ "")
    (hnet : net (mkRequest author tok) = .response 204) :
    main ⟨some desc, some author, tok⟩ net =
      { exitCode := 0, output := [skipMessage author]
      , requests := [mkRequest author tok] } := by
  simp only [main, pyTruthy]
  rw [if_pos (by simpa using hauthor)]
  simp [afterLookup, is_org_member, hnet]

/-- Witness for C3: a 204 response with a description lacking the CLA text. -/
theorem claim_C3_witness :
    main ⟨some "no cla here", some "octocat", none⟩ (fun _ => HttpOutcome.response 204) =
      { exitCode := 0, output := [skipMessage "octocat"]
      , requests := [mkRequest "octocat" none] } :=
  claim_C3 "no cla here" "octocat" none (fun _ => HttpOutcome.response 204)
    (by decide) rfl

/-- Claim C4: every lookup outcome other than an HTTP 204 response (a
404 error, any other HTTP error, a non-204 response status, or an
exception) yields the undetermined result `none` — never a confirmed
non-membership — and the run always falls through to the CLA text check,
whose substring test alone decides the exit code. -/
theorem claim_C4 (author : String) (tok : Option String)
    (net : Request → HttpOutcome) (desc : String)
    (hauthor : author ≠ "")
    (hnet : net (mkRequest author tok) ≠ .response 204) :
    (is_org_member author tok net).status = none ∧
    (main ⟨some desc, some author, tok⟩ net).exitCode =
      (if containsSubstr desc CLA_TEXT then 0 else 1) := by
  have hst : (is_org_member author tok net).status = none := by
    rw [is_org_member_status, if_neg hnet]
  refine ⟨hst, ?_⟩
  simp only [main, pyTruthy]
  rw [if_pos (by simpa using hauthor)]
  simp only [Option.getD]
  rw [afterLookup]
  rw [show (is_org_member author tok net).status = none from hst]
  exact claCheck_exitCode _ _ _

/-- Witness for C4: an HTTP 404 error on the membership request. -/
theorem claim_C4_witness :
    (is_org_member "octocat" none (fun _ => HttpOutcome.httpError 404)).status = none ∧
    (main ⟨some "fixes bug", some "octocat", none⟩
        (fun _ => HttpOutcome.httpError 404)).exitCode =
      (if containsSubstr "fixes bug" CLA_TEXT then 0 else 1) :=
  claim_C4 "octocat" none (fun _ => HttpOutcome.httpError 404) "fixes bug"
    (by decide) (by decide)

/-- Claim C5: when PR_DESCRIPTION is absent the program prints the
diagnostic and exits with 1, whatever PR_AUTHOR and GITHUB_TOKEN are, and
issues no network request. -/
theorem claim_C5 (env : Env) (net : Request → HttpOutcome)
    (h : env.PR_DESCRIPTION = none) :
    main env net =
      { exitCode := 1, output := [noDescriptionMessage], requests := [] } := by
  obtain ⟨d, a, t⟩ := env
  simp only at h
  subst h
  rfl

/-- Witness for C5: only PR_AUTHOR and GITHUB_TOKEN set. -/
theorem claim_C5_witness :
    main ⟨none, some "octocat", some "tok"⟩ (fun _ => HttpOutcome.response 204) =
      { exitCode := 1, output := [noDescriptionMessage], requests := [] } :=
  claim_C5 ⟨none, some "octocat", some "tok"⟩ (fun _ => HttpOutcome.response 204) rfl

/-- Claim C6: with the description and token fixed, a run whose
membership lookup does not get a 204 response (404, other error status,
or a transport exception) has the same exit code as a run with PR_AUTHOR
absent: both fall through to the same text-match check and neither is
fatal. -/
theorem claim_C6 (desc author : String) (tok : Option String)
    (net : Request → HttpOutcome)
    (hauthor : author ≠ "")
    (hnet : net (mkRequest author tok) ≠ .response 204) :
    (main ⟨some desc, some author, tok⟩ net).exitCode =
      (main ⟨some desc, none, tok⟩ net).exitCode ∧
    (main ⟨some desc, some author, tok⟩ net).exitCode =
      (if containsSubstr desc CLA_TEXT then 0 else 1) := by
  have hst : (is_org_member author tok net).status = none := by
    rw [is_org_member_status, if_neg hnet]
  have hleft : (main ⟨some desc, some author, tok⟩ net).exitCode =
      (if containsSubstr desc CLA_TEXT then 0 else 1) := by
    simp only [main, pyTruthy]
    rw [if_pos (by simpa using hauthor)]
    simp only [Option.getD]
    rw [afterLookup]
    rw [show (is_org_member author tok net).status = none from hst]
    exact claCheck_exitCode _ _ _
  have hright : (main ⟨some desc, none, tok⟩ net).exitCode =
      (if containsSubstr desc CLA_TEXT then 0 else 1) := by
    simp only [main, pyTruthy]
    rw [if_neg (by simp)]
    exact claCheck_exitCode _ _ _
  exact ⟨hleft.trans hright.symm, hleft⟩

/-- Witness for C6: a transport exception on the membership request. -/
theorem claim_C6_witness :
    (main ⟨some "fixes bug", some "octocat", none⟩
        (fun _ => HttpOutcome.exception "timeout")).exitCode =
      (main ⟨some "fixes bug", none, none⟩
        (fun _ => HttpOutcome.exception "timeout")).exitCode ∧
    (main ⟨some "fixes bug", some "octocat", none⟩
        (fun _ => HttpOutcome.exception "timeout")).exitCode =
      (if containsSubstr "fixes bug" CLA_TEXT then 0 else 1) :=
  claim_C6 "fixes bug" "octocat" none (fun _ => HttpOutcome.exception "timeout")
    (by decide) (by decide)

/-- Claim C7: every run issues at most one outbound network request. -/
theorem claim_C7 (env : Env) (net : Request → HttpOutcome) :
    (main env net).requests.length ≤ 1 := by
  obtain ⟨d, a, t⟩ := env
  cases d with
  | none => simp [main]
  | some desc =>
      simp only [main]
      cases hpa : pyTruthy a with
      | false => simp [claCheck]; split <;> simp
      | true =>
          simp only [if_pos rfl, afterLookup]
          cases hst : (is_org_member (a.getD "") t net).status with
          | none => simp [claCheck, is_org_member_requests]; split <;> simp
          | some b =>
              cases b with
              | false => simp [claCheck, is_org_member_requests]; split <;> simp
              | true => simp [is_org_member_requests]

/-- Claim C8: the concrete scenarios — description "fixes bug" with no
author prints a line containing the CLA sentence and exits 1; description
equal to the CLA sentence with no author exits 0. -/
theorem claim_C8 :
    (main ⟨some "fixes bug", none, none⟩ (fun _ => HttpOutcome.exception "e")).exitCode = 1 ∧
    (∃ m ∈ (main ⟨some "fixes bug", none, none⟩ (fun _ => HttpOutcome.exception "e")).output,
      containsSubstr m CLA_TEXT = true) ∧
    (main ⟨some CLA_TEXT, none, none⟩ (fun _ => HttpOutcome.exception "e")).exitCode = 0 := by
  refine ⟨?_, ⟨failMessage, ?_, failMessage_contains_cla⟩, ?_⟩
  · have hcla : containsSubstr "fixes bug" CLA_TEXT = false := by decide
    simp [main, pyTruthy, claCheck, hcla]
  · have hcla : containsSubstr "fixes bug" CLA_TEXT = false := by decide
    simp [main, pyTruthy, claCheck, hcla]
  · have hcla : containsSubstr CLA_TEXT CLA_TEXT = true := by decide
    simp [main, pyTruthy, claCheck, hcla]

/-- Claim C9: the membership lookup never returns a confirmed
non-membership: its result is `some true` exactly on an HTTP 204 response
and `none` in every other case (including 2xx statuses other than 204),
so the silent confirmed-non-member branch of `main` is unreachable. -/
theorem claim_C9 (username : String) (tok : Option String)
    (net : Request → HttpOutcome) :
    ((is_org_member username tok net).status = some true ∨
      (is_org_member username tok net).status = none) ∧
    ((is_org_member username tok net).status = some true ↔
      net (mkRequest username tok) = .response 204) := by
  rw [is_org_member_status]
  by_cases h : net (mkRequest username tok) = .response 204
  · simp [h]
  · simp [h]

/-- Claim C10: presence of the optional variables is decided by
truthiness: PR_AUTHOR set to the empty string makes the run identical to
PR_AUTHOR being absent (including the not-set warning), and GITHUB_TOKEN
set to the empty string builds the same request, with no Authorization
header, as no token at all. -/
theorem claim_C10 (desc : String) (tok : Option String)
    (net : Request → HttpOutcome) (username : String) :
    main ⟨some desc, some "", tok⟩ net = main ⟨some desc, none, tok⟩ net ∧
    authorNotSetMessage ∈ (main ⟨some desc, some "", tok⟩ net).output ∧
    mkRequest username (some "") = mkRequest username none := by
  refine ⟨rfl, ?_, rfl⟩
  simp [main, pyTruthy, claCheck]
  split <;> simp

end CheckCla
